import Mathlib

/-!
Verification of the routing-and-admission core of the anthropic-load-balancer
reverse proxy, as a shallow embedding of `src/config.py`, `src/tracker.py`,
`src/proxy.py` and `src/main.py`.

Conventions of the embedding:
* Python integers are `Int`; quantities that the code computes with floats
  (scores, utilisation percentages) are `ℚ`.
* Wall-clock timestamps (`time.time()`) are `Int` seconds, passed explicitly
  to every operation that reads the clock.
* A Python `dict` of strings is an association list; insertion and removal
  are modelled up to lookup (`dget?`), which is all the code observes.
* Exceptions that the code can raise are `Except` errors; exceptions that
  the code catches and converts are folded into the return value.
-/

namespace LoadBalancer

/-- `config.py`: `SubscriptionConfig` — static configuration of one
subscription (pydantic validates `1 ≤ max_concurrent ≤ 50`, `1 ≤ priority`;
those bounds are side conditions, not part of the record). -/
structure SubscriptionConfig where
  name : String
  api_key : String
  max_concurrent : Int
  priority : Int
  enabled : Bool
deriving DecidableEq

/-- `tracker.py`: `SubscriptionState` — runtime state of one subscription.
`last_429_at` is the timestamp of the most recent 429, `none` if never. -/
structure SubscriptionState where
  config : SubscriptionConfig
  active_connections : Int
  total_requests : Int
  total_errors : Int
  last_429_at : Option Int
deriving DecidableEq

namespace SubscriptionState

def name (s : SubscriptionState) : String := s.config.name

def api_key (s : SubscriptionState) : String := s.config.api_key

def max_concurrent (s : SubscriptionState) : Int := s.config.max_concurrent

def priority (s : SubscriptionState) : Int := s.config.priority

def enabled (s : SubscriptionState) : Bool := s.config.enabled

/-- `tracker.py` line 47-49: `max(0, max_concurrent - active_connections)`. -/
def available_capacity (s : SubscriptionState) : Int :=
  max 0 (s.max_concurrent - s.active_connections)

/-- `tracker.py` line 51-55: in cooldown iff a 429 was recorded and
`now - last_429_at < cooldown_seconds`. -/
def is_in_cooldown (s : SubscriptionState) (cooldown_seconds now : Int) : Bool :=
  match s.last_429_at with
  | none => false
  | some t => decide (now - t < cooldown_seconds)

end SubscriptionState

/-- `tracker.py` line 130-146: the candidate filter of `select_subscription` —
enabled, below capacity, not in cooldown. -/
def eligible (cooldown_seconds now : Int) (s : SubscriptionState) : Bool :=
  s.enabled && decide (0 < s.available_capacity) &&
    !(s.is_in_cooldown cooldown_seconds now)

/-- Lexicographic `≤` on pairs, as Python compares tuples. -/
def lexLe {α β : Type} [LinearOrder α] [LinearOrder β] (a b : α × β) : Bool :=
  decide (a.1 < b.1) || (decide (a.1 = b.1) && decide (a.2 ≤ b.2))

/-- Python `str.lower`, character by character (ASCII as in the header names
the code handles). -/
def pyLower (s : String) : String := String.mk (s.data.map Char.toLower)

/-- Python `str.startswith`. -/
def pyStartsWith (s pre : String) : Bool := pre.data.isPrefixOf s.data

/-- `tracker.py` line 154: the key of the simple policy,
`(-available_capacity, priority)`. -/
def simpleKey (s : SubscriptionState) : Int × Int :=
  (-s.available_capacity, s.priority)

/-- Comparator realising Python's stable ascending sort by `simpleKey`. -/
def simpleLe (a b : SubscriptionState) : Bool :=
  lexLe (simpleKey a) (simpleKey b)

/-- A Python dict holding profile data for `select_subscription`:
`bot_profile.get("preferred_subscription")`, `bot_profile.get("classification")`. -/
structure BotProfile where
  preferred_subscription : Option String
  classification : Option String
deriving DecidableEq

/-- One entry of the `subscription_rates` dict:
`rate.get("requests_last_minute", 0)`. -/
structure RateInfo where
  requests_last_minute : Option ℚ
deriving DecidableEq

/-- One entry of the `account_utilization` dict:
`util.get("hours_to_reset", 168)`, `util.get("utilization_pct", 0)`. -/
structure UtilInfo where
  hours_to_reset : Option ℚ
  utilization_pct : Option ℚ
deriving DecidableEq

/-- Lookup in a Python dict passed as an association list (keys unique). -/
def dictFind {β : Type} (m : List (String × β)) (k : String) : Option β :=
  (m.find? (fun p => p.1 == k)).map (fun p => p.2)

/-- `clamp` as `max(-5.0, min(5.0, x))` in `tracker.py` line 204. -/
def clampQ (lo hi x : ℚ) : ℚ := max lo (min hi x)

/-- `tracker.py` line 163-235: `score_subscription`, the smart-routing score
of one candidate (float arithmetic rendered in `ℚ`).  Returns the sort key
`(score, -priority)`; Python sorts these descending (`reverse=True`). -/
def score_subscription (bp : BotProfile)
    (subscription_rates : Option (List (String × RateInfo)))
    (account_utilization : Option (List (String × UtilInfo)))
    (s : SubscriptionState) : ℚ × Int :=
  let base : ℚ := (s.available_capacity : ℚ)
  let affinity : ℚ := if bp.preferred_subscription = some s.name then 3 else 0
  let pacing : ℚ :=
    match account_utilization.bind (fun d => dictFind d s.name) with
    | none => 0
    | some u =>
      let hours_to_reset := u.hours_to_reset.getD 168
      let util_pct := u.utilization_pct.getD 0
      let hours_elapsed := max 0 (168 - hours_to_reset)
      let days_elapsed := hours_elapsed / 24
      let expected_pct := (days_elapsed / 7) * 100
      let pacing_score := clampQ (-5) 5 ((expected_pct - util_pct) / 10)
      let heavy : ℚ :=
        if bp.classification = some "heavy" ∧ 80 < util_pct then -3 else 0
      let near_reset : ℚ :=
        if hours_to_reset < 12 ∧ util_pct < 50 then 2 else 0
      pacing_score + heavy + near_reset
  let rate_penalty : ℚ :=
    match subscription_rates.bind (fun d => dictFind d s.name) with
    | none => 0
    | some r =>
      let rpm := r.requests_last_minute.getD 0
      if 20 < rpm then -3 else if 10 < rpm then -1 else 0
  let priority_bonus : ℚ := (10 - (s.priority : ℚ)) / 10
  (base + affinity + pacing + rate_penalty + priority_bonus, -s.priority)

/-- `tracker.py`: `SubscriptionTracker` — the cooldown duration and the
subscription states in dict insertion order. -/
structure SubscriptionTracker where
  cooldown_seconds : Int
  states : List SubscriptionState
deriving DecidableEq

/-- `tracker.py` line 97-246: `select_subscription`.  Filters candidates
(enabled, below capacity, not cooling down); with no `bot_profile` sorts by
`(-available_capacity, priority)` and takes the first, otherwise sorts
descending by `score_subscription`.  `client_id` is used only for logging. -/
def SubscriptionTracker.select_subscription (tr : SubscriptionTracker)
    (now : Int) (_client_id : Option String) (bot_profile : Option BotProfile)
    (subscription_rates : Option (List (String × RateInfo)))
    (account_utilization : Option (List (String × UtilInfo))) :
    Option SubscriptionState :=
  let candidates := tr.states.filter (eligible tr.cooldown_seconds now)
  if candidates.isEmpty then none
  else
    match bot_profile with
    | none => (candidates.insertionSort (fun a b => simpleLe a b = true)).head?
    | some bp =>
      (candidates.insertionSort (fun a b =>
        lexLe (score_subscription bp subscription_rates account_utilization b)
          (score_subscription bp subscription_rates account_utilization a) =
            true)).head?

/-- `tracker.py` line 259-262: the entry half of `acquire_connection` —
increments `active_connections` and `total_requests`, unconditionally. -/
def acquireEnter (s : SubscriptionState) : SubscriptionState :=
  { s with active_connections := s.active_connections + 1,
           total_requests := s.total_requests + 1 }

/-- `tracker.py` line 266-269: the release half of `acquire_connection` —
`active_connections = max(0, active_connections - 1)`. -/
def releaseConnection (s : SubscriptionState) : SubscriptionState :=
  { s with active_connections := max 0 (s.active_connections - 1) }

/-- `tracker.py` line 271-278: `record_429` — stamps `last_429_at = now` and
increments `total_errors`. -/
def record_429 (now : Int) (s : SubscriptionState) : SubscriptionState :=
  { s with last_429_at := some now, total_errors := s.total_errors + 1 }

/-- `tracker.py` line 280-283: `record_error` — increments `total_errors`. -/
def record_error (s : SubscriptionState) : SubscriptionState :=
  { s with total_errors := s.total_errors + 1 }

/-- Apply a per-subscription mutation to the named state (names are unique,
validated at startup). -/
def updateState (tr : SubscriptionTracker) (n : String)
    (f : SubscriptionState → SubscriptionState) : SubscriptionTracker :=
  { tr with states := tr.states.map (fun s => if s.name = n then f s else s) }

/-- One tracker operation of an interleaving: `select_subscription` (reads
only), the two halves of `acquire_connection`, `record_429`, `record_error`. -/
inductive TrackerOp where
  | selectOp (now : Int)
  | acquireEnterOp (n : String)
  | releaseOp (n : String)
  | record429Op (n : String) (now : Int)
  | recordErrorOp (n : String)
deriving DecidableEq

def applyOp (tr : SubscriptionTracker) : TrackerOp → SubscriptionTracker
  | .selectOp _ => tr
  | .acquireEnterOp n => updateState tr n acquireEnter
  | .releaseOp n => updateState tr n releaseConnection
  | .record429Op n t => updateState tr n (record_429 t)
  | .recordErrorOp n => updateState tr n record_error

def runOps (tr : SubscriptionTracker) (ops : List TrackerOp) : SubscriptionTracker :=
  ops.foldl applyOp tr

/-! ### Header dictionaries (`proxy.py`) -/

/-- Python dict insertion `m[k] = v`, modelled up to lookup. -/
def dinsert (m : List (String × String)) (k v : String) : List (String × String) :=
  (k, v) :: m.filter (fun p => !(p.1 == k))

/-- Python dict removal `m.pop(k, None)`. -/
def dpop (m : List (String × String)) (k : String) : List (String × String) :=
  m.filter (fun p => !(p.1 == k))

/-- Python dict lookup `m.get(k)`. -/
def dget? (m : List (String × String)) (k : String) : Option String :=
  (m.find? (fun p => p.1 == k)).map (fun p => p.2)

/-- `proxy.py` line 30-36: request headers stripped before forwarding. -/
def SKIP_REQUEST_HEADERS : List String :=
  ["host", "authorization", "x-api-key", "content-length", "transfer-encoding"]

/-- `proxy.py` line 39-44: response headers stripped before returning. -/
def SKIP_RESPONSE_HEADERS : List String :=
  ["content-encoding", "content-length", "transfer-encoding", "connection"]

/-- One iteration of the copy loop of `_build_headers` (`proxy.py` line
82-84): keep the pair unless its lower-cased name is stripped. -/
def strip_step (m : List (String × String)) (p : String × String) :
    List (String × String) :=
  if SKIP_REQUEST_HEADERS.contains (pyLower p.1) then m else dinsert m p.1 p.2

/-- Plain dict construction from header pairs, no stripping. -/
def dict_step (m : List (String × String)) (p : String × String) :
    List (String × String) :=
  dinsert m p.1 p.2

/-- `proxy.py` line 77-97: `_build_headers` — copy the incoming headers whose
lower-cased name is not in the strip set, then install exactly one
authentication header chosen by the credential prefix. -/
def build_headers (reqHeaders : List (String × String)) (api_key : String) :
    List (String × String) :=
  let base := reqHeaders.foldl strip_step []
  if pyStartsWith api_key "sk-ant-" then
    dpop (dinsert base "x-api-key" api_key) "authorization"
  else
    dpop (dinsert base "authorization" ("Bearer " ++ api_key)) "x-api-key"

/-- The incoming headers as the Python dict the code iterates over
(`for key, value in request.headers.items(): headers[key] = value`),
without any stripping; reference point for "all other headers unchanged". -/
def pyDict (reqHeaders : List (String × String)) : List (String × String) :=
  reqHeaders.foldl dict_step []

/-- `proxy.py` line 99-105: `_filter_response_headers` — keep every header
whose lower-cased name is outside `SKIP_RESPONSE_HEADERS`. -/
def filter_response_headers (hs : List (String × String)) :
    List (String × String) :=
  hs.filter (fun p => !(SKIP_RESPONSE_HEADERS.contains (pyLower p.1)))

/-! ### Streaming detection (`proxy.py` line 107-113) -/

/-- A parsed JSON value, the possible results of `json.loads`. -/
inductive JsonVal where
  | null
  | boolVal (b : Bool)
  | num (q : ℚ)
  | str (s : String)
  | arr (xs : List JsonVal)
  | obj (fields : List (String × JsonVal))

def JsonVal.isObj : JsonVal → Bool
  | .obj _ => true
  | _ => false

/-- An uncaught Python exception surfaced by the embedded code. -/
inductive PyError where
  | attributeError
deriving DecidableEq

/-- `proxy.py` line 107-113: `_is_streaming_request`, on the JSON-parse
outcome of the body bytes (`.error` = `json.loads` raised `JSONDecodeError`
or `UnicodeDecodeError`, which the code catches and maps to `False`).
`payload.get("stream", False) is True` requires `payload` to be a dict; on
any other parsed value `.get` raises an uncaught `AttributeError`. -/
def is_streaming_request (parsed : Except Unit JsonVal) : Except PyError Bool :=
  match parsed with
  | .error _ => .ok false
  | .ok (JsonVal.obj fields) =>
    match dictFind fields "stream" with
    | some (JsonVal.boolVal true) => .ok true
    | some _ => .ok false
    | none => .ok false
  | .ok _ => .error PyError.attributeError

/-! ### The dispatch path (`proxy.py` line 234-394, `main.py` line 455-472) -/

/-- Outcome of one upstream HTTP attempt, as the code observes it. -/
inductive UpstreamOutcome where
  | status (code : Int) (hdrs : List (String × String))
  | timeoutExn
  | requestErrorExn
deriving DecidableEq

def UpstreamOutcome.code? : UpstreamOutcome → Option Int
  | .status c _ => some c
  | _ => none

/-- A response the proxy hands to the client: either an upstream response
forwarded (status plus filtered headers), or a proxy-originated JSON error
envelope `{"error": {"type": kind, "message": message}}`. -/
inductive ProxyResponse where
  | upstream (status : Int) (hdrs : List (String × String))
  | envelope (status : Int) (kind : String) (message : String)
deriving DecidableEq

def OVERLOADED_MSG : String :=
  "All API subscriptions are currently at capacity. Please retry."

def RATE_LIMITED_ALL_MSG : String :=
  "All subscriptions rate limited. Please retry later."

/-- `proxy.py` line 19: `MAX_429_RETRIES = 2`. -/
def MAX_429_RETRIES : Nat := 2

/-- `proxy.py` line 319-394: the non-streaming retry loop
`for attempt in range(MAX_429_RETRIES + 1)`, written with explicit fuel
(`fuel = 3 - attempt`); falling out of the loop or breaking on an excluded
selection returns the final 429 envelope of line 389-394.
`upstream sub.name attempt` is the outcome of the buffered upstream call,
`times attempt` the wall clock at attempt `attempt`. -/
def nonStreamingAttempts (upstream : String → Nat → UpstreamOutcome)
    (times : Nat → Int) :
    Nat → Nat → List String → SubscriptionTracker →
    ProxyResponse × SubscriptionTracker
  | 0, _, _, tr =>
    (ProxyResponse.envelope 429 "rate_limit" RATE_LIMITED_ALL_MSG, tr)
  | fuel + 1, attempt, excluded, tr =>
    match tr.select_subscription (times attempt) none none none none with
    | none =>
      (ProxyResponse.envelope 503 "overloaded" OVERLOADED_MSG, tr)
    | some sub =>
      if excluded.contains sub.name then
        (ProxyResponse.envelope 429 "rate_limit" RATE_LIMITED_ALL_MSG, tr)
      else
        let tr1 := updateState tr sub.name acquireEnter
        match upstream sub.name attempt with
        | .status code hdrs =>
          if code = 429 then
            let tr2 := updateState tr1 sub.name (record_429 (times attempt))
            nonStreamingAttempts upstream times fuel (attempt + 1)
              (sub.name :: excluded) (updateState tr2 sub.name releaseConnection)
          else if 500 ≤ code then
            (ProxyResponse.upstream code (filter_response_headers hdrs),
              updateState (updateState tr1 sub.name record_error) sub.name
                releaseConnection)
          else
            (ProxyResponse.upstream code (filter_response_headers hdrs),
              updateState tr1 sub.name releaseConnection)
        | .timeoutExn =>
          (ProxyResponse.envelope 504 "timeout" "Request timed out.",
            updateState (updateState tr1 sub.name record_error) sub.name
              releaseConnection)
        | .requestErrorExn =>
          (ProxyResponse.envelope 502 "proxy_error" "Failed to connect to upstream.",
            updateState (updateState tr1 sub.name record_error) sub.name
              releaseConnection)

/-- `proxy.py` line 257-317: the streaming path — one selection, no retry. -/
def streamingPath (tr : SubscriptionTracker) (now : Int)
    (upstream : String → UpstreamOutcome) : ProxyResponse × SubscriptionTracker :=
  match tr.select_subscription now none none none none with
  | none => (ProxyResponse.envelope 503 "overloaded" OVERLOADED_MSG, tr)
  | some sub =>
    let tr1 := updateState tr sub.name acquireEnter
    match upstream sub.name with
    | .status code hdrs =>
      if code = 429 then
        (ProxyResponse.envelope 429 "rate_limit" "Rate limited. Please retry.",
          updateState (updateState tr1 sub.name (record_429 now)) sub.name
            releaseConnection)
      else
        (ProxyResponse.upstream code (filter_response_headers hdrs),
          updateState tr1 sub.name releaseConnection)
    | .timeoutExn =>
      (ProxyResponse.envelope 504 "timeout" "Request timed out.",
        updateState (updateState tr1 sub.name record_error) sub.name
          releaseConnection)
    | .requestErrorExn =>
      (ProxyResponse.envelope 502 "proxy_error" "Failed to connect to upstream.",
        updateState (updateState tr1 sub.name record_error) sub.name
          releaseConnection)

/-- An incoming request body: its byte length together with the outcome of
parsing it as JSON — the only two observations the dispatch path makes. -/
structure RequestBody where
  len : Nat
  parsed : Except Unit JsonVal

/-- `proxy.py` line 234-394: `proxy_request` — read the body, detect
streaming, then run the streaming path or the retry loop.  There is no check
of `body.len` anywhere on this path.  An uncaught exception from
`_is_streaming_request` propagates. -/
def proxy_request (tr : SubscriptionTracker) (body : RequestBody)
    (upstreamStream : String → UpstreamOutcome)
    (upstreamBuffered : String → Nat → UpstreamOutcome)
    (times : Nat → Int) :
    Except PyError (ProxyResponse × SubscriptionTracker) :=
  match is_streaming_request body.parsed with
  | .error e => .error e
  | .ok true => .ok (streamingPath tr (times 0) upstreamStream)
  | .ok false =>
    .ok (nonStreamingAttempts upstreamBuffered times (MAX_429_RETRIES + 1) 0 [] tr)

/-- `config.py`: `ExternalAccessConfig`. -/
structure ExternalAccessConfig where
  enabled : Bool
  api_token : String
  allowed_clients : List String
deriving DecidableEq

/-- The request attributes `check_external_access` reads: the peer address
and the `x-api-token` / `x-client-id` headers (absent header = `""`). -/
structure EdgeRequest where
  clientHost : Option String
  xApiToken : String
  xClientId : String
deriving DecidableEq

/-- `main.py` line 64-76: `is_local_network`. -/
def is_local_network (host? : Option String) : Bool :=
  match host? with
  | none => false
  | some h =>
    (h == "127.0.0.1") || (h == "::1") || (h == "localhost") ||
      pyStartsWith h "192.168.68."

/-- `main.py` line 426-452: `check_external_access` (`none` config stands for
the `config is None` pre-startup state). -/
def check_external_access (cfg? : Option ExternalAccessConfig)
    (req : EdgeRequest) : Bool × String :=
  if is_local_network req.clientHost then (true, "")
  else
    match cfg? with
    | none => (false, "External access not enabled")
    | some ext =>
      if !ext.enabled then (false, "External access not enabled")
      else if req.xApiToken == "" || req.xApiToken != ext.api_token then
        (false, "Invalid or missing API token")
      else if !ext.allowed_clients.isEmpty &&
          !(ext.allowed_clients.contains req.xClientId) then
        (false, "Client " ++ req.xClientId ++ " not in allowed list")
      else (true, "")

/-- `main.py` line 455-472: `proxy_v1` — admission, readiness, then
`proxy_request`.  No size check happens here either. -/
def proxy_v1 (cfg? : Option ExternalAccessConfig) (proxyReady : Bool)
    (tr : SubscriptionTracker) (req : EdgeRequest) (body : RequestBody)
    (upstreamStream : String → UpstreamOutcome)
    (upstreamBuffered : String → Nat → UpstreamOutcome)
    (times : Nat → Int) :
    Except PyError (ProxyResponse × SubscriptionTracker) :=
  let chk := check_external_access cfg? req
  if !chk.1 then .ok (ProxyResponse.envelope 401 "unauthorized" chk.2, tr)
  else if !proxyReady then
    .ok (ProxyResponse.envelope 503 "not_ready" "Service not initialized", tr)
  else proxy_request tr body upstreamStream upstreamBuffered times

/-! ### Application startup (`main.py` line 91-193, `proxy.py` line 52-55) -/

/-- The parameter names accepted by `AnthropicProxy.__init__`
(`proxy.py` line 52): `tracker` and `timeout`. -/
def anthropic_proxy_init_params : List String := ["tracker", "timeout"]

/-- The keyword arguments the lifespan handler passes at `main.py` line 133:
`AnthropicProxy(tracker=tracker, storage=storage)`. -/
def lifespan_proxy_call_kwargs : List String := ["tracker", "storage"]

/-- Keyword arguments a Python call cannot bind: those naming no parameter. -/
def unexpected_kwargs (params kwargs : List String) : List String :=
  kwargs.filter (fun k => !(params.contains k))

/-- How the lifespan startup terminates. -/
inductive StartupOutcome where
  | exitDuplicateNames
  | typeErrorUnexpectedKw (kw : String)
  | running
deriving DecidableEq

/-- The configuration fields the startup logic reads. -/
structure Config where
  subscriptions : List SubscriptionConfig
  cooldown_seconds : Int
  external : ExternalAccessConfig
deriving DecidableEq

/-- `main.py` line 91-134: the startup half of `lifespan`, after a config
has loaded — validate unique names (`sys.exit(1)` otherwise), build the
tracker and storage, then construct `AnthropicProxy` by keyword call; an
unexpected keyword raises `TypeError` before the proxy exists. -/
def lifespan_startup (cfg : Config) : StartupOutcome :=
  let names := cfg.subscriptions.map (fun s => s.name)
  if names.Nodup then
    match (unexpected_kwargs anthropic_proxy_init_params
        lifespan_proxy_call_kwargs).head? with
    | some k => StartupOutcome.typeErrorUnexpectedKw k
    | none => StartupOutcome.running
  else StartupOutcome.exitDuplicateNames

/-! ### Derived notions and concrete fixtures -/

/-- The wall-clock instant until which `is_in_cooldown` holds:
`last_429_at + cooldown_seconds`. -/
def cooldownDeadline (s : SubscriptionState) (cooldown_seconds : Int) :
    Option Int :=
  s.last_429_at.map (fun t => t + cooldown_seconds)

/-- The simple selection policy in the words of the spec: the first element
of the eligible candidates sorted by `(-available_capacity, priority)`, or
none when no subscription is eligible. -/
def spec_simple_policy (tr : SubscriptionTracker) (now : Int) :
    Option SubscriptionState :=
  ((tr.states.filter (eligible tr.cooldown_seconds now)).insertionSort
    (fun a b => simpleLe a b = true)).head?

/-- Fixture: one enabled subscription with a single concurrency slot. -/
def cfgOne : SubscriptionConfig :=
  { name := "a", api_key := "sk-ant-k", max_concurrent := 1, priority := 1,
    enabled := true }

def stOne : SubscriptionState :=
  { config := cfgOne, active_connections := 0, total_requests := 0,
    total_errors := 0, last_429_at := none }

def trOne : SubscriptionTracker := { cooldown_seconds := 60, states := [stOne] }

/-- Fixture: the same subscription just after a 429 at time 0. -/
def stCool : SubscriptionState :=
  { config := cfgOne, active_connections := 0, total_requests := 1,
    total_errors := 1, last_429_at := some 0 }

def trCool : SubscriptionTracker :=
  { cooldown_seconds := 60, states := [stCool] }

/-- Fixture: external access disabled. -/
def extOff : ExternalAccessConfig :=
  { enabled := false, api_token := "", allowed_clients := [] }

/-- Fixture: a request from loopback with no token headers. -/
def reqLocal : EdgeRequest :=
  { clientHost := some "127.0.0.1", xApiToken := "", xClientId := "" }

/-- Fixture: a non-JSON body one byte over the 10 MiB cap named by the spec. -/
def bodyBig : RequestBody :=
  { len := 10 * 1024 * 1024 + 1, parsed := Except.error () }

/-- Fixture: the tracker after `trOne` served exactly one successful request. -/
def trOneDone : SubscriptionTracker :=
  { cooldown_seconds := 60,
    states := [{ config := cfgOne, active_connections := 0,
                 total_requests := 1, total_errors := 0, last_429_at := none }] }

/-- Fixture: a well-formed configuration (unique subscription names). -/
def cfgStartup : Config :=
  { subscriptions := [cfgOne], cooldown_seconds := 60, external := extOff }

/-- Fixture: incoming request headers for the header-rewriting witness. -/
def reqH : List (String × String) :=
  [("Host", "proxy.local"), ("Authorization", "Bearer old"),
   ("anthropic-version", "2023-06-01"), ("Content-Type", "application/json")]

/-! ## General lemmas -/

theorem lexLe_total {α β : Type} [LinearOrder α] [LinearOrder β]
    (a b : α × β) : lexLe a b || lexLe b a := by
  simp only [lexLe, Bool.or_eq_true, Bool.and_eq_true, decide_eq_true_eq]
  rcases lt_trichotomy a.1 b.1 with h | h | h
  · exact Or.inl (Or.inl h)
  · rcases le_total a.2 b.2 with h2 | h2
    · exact Or.inl (Or.inr ⟨h, h2⟩)
    · exact Or.inr (Or.inr ⟨h.symm, h2⟩)
  · exact Or.inr (Or.inl h)

theorem lexLe_trans {α β : Type} [LinearOrder α] [LinearOrder β]
    {a b c : α × β} (h1 : lexLe a b) (h2 : lexLe b c) : lexLe a c := by
  simp only [lexLe, Bool.or_eq_true, Bool.and_eq_true, decide_eq_true_eq]
    at h1 h2 ⊢
  rcases h1 with h1 | ⟨h1e, h1r⟩
  · rcases h2 with h2 | ⟨h2e, h2r⟩
    · exact Or.inl (h1.trans h2)
    · exact Or.inl (lt_of_lt_of_le h1 (le_of_eq h2e))
  · rcases h2 with h2 | ⟨h2e, h2r⟩
    · exact Or.inl (lt_of_le_of_lt (le_of_eq h1e) h2)
    · exact Or.inr ⟨h1e.trans h2e, h1r.trans h2r⟩

theorem simpleLe_total (a b : SubscriptionState) :
    simpleLe a b || simpleLe b a := lexLe_total _ _

theorem simpleLe_trans (a b c : SubscriptionState) :
    simpleLe a b → simpleLe b c → simpleLe a c :=
  fun h1 h2 => lexLe_trans h1 h2

/-- The head of an insertion-sorted list is a `le`-lower bound of the input. -/
theorem head?_insertionSort_min {α : Type} {le : α → α → Bool}
    (htrans : ∀ a b c : α, le a b → le b c → le a c)
    (htotal : ∀ a b : α, le a b || le b a)
    {l : List α} {x : α}
    (h : (l.insertionSort (fun a b => le a b = true)).head? = some x) :
    ∀ y ∈ l, le x y := by
  haveI : IsTotal α (fun a b => le a b = true) :=
    ⟨fun a b => by simpa [Bool.or_eq_true] using htotal a b⟩
  haveI : IsTrans α (fun a b => le a b = true) :=
    ⟨fun a b c hab hbc => htrans a b c hab hbc⟩
  intro y hy
  have hs := List.sorted_insertionSort (fun a b => le a b = true) l
  rcases List.head?_eq_some_iff.mp h with ⟨ys, hys⟩
  have hmem : y ∈ l.insertionSort (fun a b => le a b = true) :=
    (List.mem_insertionSort _).mpr hy
  rw [hys] at hmem hs
  rcases List.mem_cons.mp hmem with hEq | hmem2
  · subst hEq
    simpa using htotal y y
  · exact (List.sorted_cons.mp hs).1 y hmem2

/-- Whatever profile data is supplied, a selected subscription is one of the
tracked states and passes the eligibility filter. -/
theorem select_eq_some_eligible {tr : SubscriptionTracker} {now : Int}
    {cid : Option String} {bp : Option BotProfile}
    {rates : Option (List (String × RateInfo))}
    {util : Option (List (String × UtilInfo))} {s : SubscriptionState}
    (h : tr.select_subscription now cid bp rates util = some s) :
    s ∈ tr.states ∧ eligible tr.cooldown_seconds now s = true := by
  have hmem : s ∈ tr.states.filter (eligible tr.cooldown_seconds now) := by
    simp only [SubscriptionTracker.select_subscription] at h
    by_cases he : (tr.states.filter (eligible tr.cooldown_seconds now)).isEmpty
    · rw [if_pos he] at h; cases h
    · rw [if_neg he] at h
      cases bp with
      | none =>
        rcases List.head?_eq_some_iff.mp h with ⟨ys, hys⟩
        have hx : s ∈ (tr.states.filter
            (eligible tr.cooldown_seconds now)).insertionSort
              (fun a b => simpleLe a b = true) := by
          rw [hys]; exact List.mem_cons_self _ _
        exact (List.mem_insertionSort _).mp hx
      | some b =>
        rcases List.head?_eq_some_iff.mp h with ⟨ys, hys⟩
        have hx : s ∈ (tr.states.filter
            (eligible tr.cooldown_seconds now)).insertionSort (fun a b' =>
              lexLe (score_subscription b rates util b')
                (score_subscription b rates util a) = true) := by
          rw [hys]; exact List.mem_cons_self _ _
        exact (List.mem_insertionSort _).mp hx
  exact ⟨(List.mem_filter.mp hmem).1, (List.mem_filter.mp hmem).2⟩

/-- With no bot profile the selection is the head of the candidates sorted by
`simpleLe`, whatever the rate and utilisation inputs. -/
theorem select_none_profile_eq (tr : SubscriptionTracker) (now : Int)
    (cid : Option String) (rates : Option (List (String × RateInfo)))
    (util : Option (List (String × UtilInfo))) :
    tr.select_subscription now cid none rates util =
      ((tr.states.filter (eligible tr.cooldown_seconds now)).insertionSort
        (fun a b => simpleLe a b = true)).head? := by
  simp only [SubscriptionTracker.select_subscription]
  by_cases he : (tr.states.filter (eligible tr.cooldown_seconds now)).isEmpty
  · rw [if_pos he]
    rw [List.isEmpty_iff] at he
    rw [he]
    rfl
  · rw [if_neg he]

/-! ## Claim theorems -/

/-- C10: on the request-dispatch path `select_subscription` is always called
with no scoring inputs (`proxy.py` lines 147, 152, 258, 323 pass no
arguments, as the embeddings `nonStreamingAttempts` and `streamingPath`
show), and with no bot profile the selection equals the simple policy —
sort the eligible candidates by `(-available_capacity, priority)` and take
the first — regardless of any rate or utilisation data. -/
theorem select_no_profile_is_simple_policy :
    ∀ (tr : SubscriptionTracker) (now : Int) (cid : Option String)
      (rates : Option (List (String × RateInfo)))
      (util : Option (List (String × UtilInfo))),
      tr.select_subscription now cid none rates util =
        spec_simple_policy tr now := by
  intro tr now cid rates util
  rw [spec_simple_policy]
  exact select_none_profile_eq tr now cid rates util

/-- C5: with no scoring inputs, `select_subscription` returns the first
element of the eligible candidates (enabled, below capacity, not cooling
down) sorted by `(-available_capacity, priority)`; it returns `none` iff no
subscription is eligible, and any returned subscription is an eligible one
whose sort key is minimal among all eligible subscriptions. -/
theorem select_subscription_simple_correct :
    ∀ (tr : SubscriptionTracker) (now : Int) (cid : Option String),
      (tr.select_subscription now cid none none none =
        ((tr.states.filter (eligible tr.cooldown_seconds now)).insertionSort
          (fun a b => simpleLe a b = true)).head?) ∧
      (tr.select_subscription now cid none none none = none ↔
        ∀ s ∈ tr.states, eligible tr.cooldown_seconds now s = false) ∧
      (∀ s, tr.select_subscription now cid none none none = some s →
        s ∈ tr.states ∧ eligible tr.cooldown_seconds now s = true ∧
        ∀ t ∈ tr.states, eligible tr.cooldown_seconds now t = true →
          simpleLe s t) := by
  intro tr now cid
  refine ⟨select_none_profile_eq tr now cid none none, ?_, ?_⟩
  · rw [select_none_profile_eq tr now cid none none]
    rw [List.head?_eq_none_iff]
    constructor
    · intro h s hs
      have hperm := List.perm_insertionSort (fun a b => simpleLe a b = true)
        (tr.states.filter (eligible tr.cooldown_seconds now))
      rw [h] at hperm
      have hnil := hperm.symm.eq_nil
      by_contra hne
      have hsin : s ∈ tr.states.filter (eligible tr.cooldown_seconds now) :=
        List.mem_filter.mpr ⟨hs, by simpa using hne⟩
      rw [hnil] at hsin
      cases hsin
    · intro h
      have hnil : tr.states.filter (eligible tr.cooldown_seconds now) = [] :=
        List.filter_eq_nil_iff.mpr (fun s hs => by simp [h s hs])
      rw [hnil]
      rfl
  · intro s hsel
    obtain ⟨hmem, helig⟩ := select_eq_some_eligible hsel
    refine ⟨hmem, helig, ?_⟩
    intro t ht helt
    rw [select_none_profile_eq tr now cid none none] at hsel
    exact head?_insertionSort_min simpleLe_trans simpleLe_total hsel t
      (List.mem_filter.mpr ⟨ht, helt⟩)

/-- C4: after `record_429` stamps time `t`, no `select_subscription` call at
a time `tSel < t + cooldown_seconds` returns that subscription (whatever
scoring inputs are supplied); `record_429` sets `last_429_at` to the call
time, and a later 429 only moves the cooldown deadline
`last_429_at + cooldown_seconds` forward, never back. -/
theorem record_429_cooldown_excludes_selection :
    (∀ (tr : SubscriptionTracker) (t tSel : Int) (s : SubscriptionState)
        (cid : Option String) (bp : Option BotProfile)
        (rates : Option (List (String × RateInfo)))
        (util : Option (List (String × UtilInfo))),
        s.last_429_at = some t → tSel < t + tr.cooldown_seconds →
        tr.select_subscription tSel cid bp rates util ≠ some s) ∧
    (∀ (s : SubscriptionState) (t : Int),
        (record_429 t s).last_429_at = some t) ∧
    (∀ (s : SubscriptionState) (t1 t2 cd : Int), t1 ≤ t2 →
        cooldownDeadline (record_429 t1 s) cd = some (t1 + cd) ∧
        cooldownDeadline (record_429 t2 (record_429 t1 s)) cd = some (t2 + cd) ∧
        t1 + cd ≤ t2 + cd) := by
  refine ⟨?_, fun s t => rfl, fun s t1 t2 cd h => ⟨rfl, rfl, by omega⟩⟩
  intro tr t tSel s cid bp rates util hlast hlt hsel
  obtain ⟨hmem, helig⟩ := select_eq_some_eligible hsel
  have hcool : s.is_in_cooldown tr.cooldown_seconds tSel = true := by
    unfold SubscriptionState.is_in_cooldown
    rw [hlast]
    simp only [decide_eq_true_eq]
    omega
  unfold eligible at helig
  rw [hcool] at helig
  simp at helig

/-- C4 witness: with `cooldown_seconds = 60` and a 429 recorded at time 0,
selection at time 30 does not return the cooling subscription. -/
theorem record_429_cooldown_excludes_selection_witness :
    trCool.select_subscription 30 none none none none ≠ some stCool :=
  record_429_cooldown_excludes_selection.1 trCool 0 30 stCool none none none
    none rfl (by decide)

/-- C9: the lifespan startup never reaches the running state: once a config
with unique subscription names has loaded, the call
`AnthropicProxy(tracker=tracker, storage=storage)` at `main.py` line 133
passes the keyword `storage`, which `AnthropicProxy.__init__`
(`proxy.py` line 52) does not accept, so startup raises `TypeError` before
the proxy is initialized. -/
theorem lifespan_startup_type_error :
    ∀ cfg : Config,
      lifespan_startup cfg ≠ StartupOutcome.running ∧
      ((cfg.subscriptions.map (fun s => s.name)).Nodup →
        lifespan_startup cfg = StartupOutcome.typeErrorUnexpectedKw "storage") := by
  intro cfg
  unfold lifespan_startup
  by_cases h : (cfg.subscriptions.map (fun s => s.name)).Nodup
  · rw [if_pos h]
    exact ⟨by decide, fun _ => by decide⟩
  · rw [if_neg h]
    exact ⟨by decide, fun hn => absurd hn h⟩

/-- C9 witness: startup on the concrete one-subscription config raises the
`TypeError` for the keyword `storage`. -/
theorem lifespan_startup_type_error_witness :
    lifespan_startup cfgStartup = StartupOutcome.typeErrorUnexpectedKw "storage" :=
  (lifespan_startup_type_error cfgStartup).2 (by decide)

/-- C8: `_filter_response_headers` returns exactly the upstream headers whose
lower-cased name is outside the hop-by-hop set
`{content-encoding, content-length, transfer-encoding, connection}`; every
kept pair is preserved verbatim and in order (the result is a sublist). -/
theorem filter_response_headers_exact :
    ∀ hs : List (String × String),
      (filter_response_headers hs).Sublist hs ∧
      ∀ kv : String × String,
        (kv ∈ filter_response_headers hs ↔
          kv ∈ hs ∧ SKIP_RESPONSE_HEADERS.contains (pyLower kv.1) = false) := by
  intro hs
  refine ⟨List.filter_sublist hs, ?_⟩
  intro kv
  simp [filter_response_headers, List.mem_filter]

/-- C6 (amended): on a body that fails to parse, `_is_streaming_request`
returns false; on a body parsing to a JSON object it returns true exactly
when the field `stream` is the JSON literal `true`; but on a body parsing to
a non-object JSON value, `payload.get` raises an uncaught `AttributeError`
instead of returning — the function is not total on parsable bodies. -/
theorem is_streaming_request_behaviour :
    (is_streaming_request (Except.error ()) = Except.ok false) ∧
    (∀ fields : List (String × JsonVal),
      (is_streaming_request (Except.ok (JsonVal.obj fields)) = Except.ok true ↔
        dictFind fields "stream" = some (JsonVal.boolVal true))) ∧
    (∀ v : JsonVal, v.isObj = false →
      is_streaming_request (Except.ok v) = Except.error PyError.attributeError) := by
  refine ⟨rfl, ?_, ?_⟩
  · intro fields
    simp only [is_streaming_request]
    cases hf : dictFind fields "stream" with
    | none => simp
    | some v =>
      cases v with
      | boolVal b => cases b <;> simp
      | null => simp
      | num q => simp
      | str s => simp
      | arr xs => simp
      | obj f2 => simp
  · intro v hv
    cases v with
    | null => rfl
    | boolVal b => rfl
    | num q => rfl
    | str s => rfl
    | arr xs => rfl
    | obj fields => simp [JsonVal.isObj] at hv

/-- C6 counterexample: the body `[]` parses as JSON, so by the claim the
detector must return false; the code raises `AttributeError` instead. -/
theorem is_streaming_request_not_total :
    is_streaming_request (Except.ok (JsonVal.arr [])) =
      Except.error PyError.attributeError := rfl

/-- C6 witness: a body parsing to the JSON number 5 hits the
`AttributeError` branch of the amended behaviour. -/
theorem is_streaming_request_behaviour_witness :
    is_streaming_request (Except.ok (JsonVal.num 5)) =
      Except.error PyError.attributeError :=
  is_streaming_request_behaviour.2.2 (JsonVal.num 5) rfl

/-- C5 witness: on the one-subscription tracker, the head of the sorted
eligible candidates coincides with the selection. -/
theorem select_subscription_simple_correct_witness :
    ((trOne.states.filter (eligible trOne.cooldown_seconds 5)).insertionSort
      (fun a b => simpleLe a b = true)).head? = some stOne := by
  rw [← (select_subscription_simple_correct trOne 5 none).1]
  decide

/-- C8 witness: the filter applied to a concrete upstream header list. -/
theorem filter_response_headers_exact_witness :
    (filter_response_headers
      [("Content-Length", "12"), ("request-id", "r1")]).Sublist
      [("Content-Length", "12"), ("request-id", "r1")] :=
  (filter_response_headers_exact
    [("Content-Length", "12"), ("request-id", "r1")]).1

/-! ## Header dictionary lemmas -/

theorem dget?_dinsert_self (m : List (String × String)) (k v : String) :
    dget? (dinsert m k v) k = some v := by
  simp [dget?, dinsert, List.find?_cons]

theorem find?_filter_ne {k k' : String} (h : k ≠ k')
    (m : List (String × String)) :
    (m.filter (fun p => !(p.1 == k'))).find? (fun p => p.1 == k) =
      m.find? (fun p => p.1 == k) := by
  induction m with
  | nil => rfl
  | cons a rest ih =>
    cases hak : (a.1 == k) with
    | true =>
      have ha' : (a.1 == k') = false := by
        rw [eq_of_beq hak]
        exact beq_eq_false_iff_ne.mpr h
      simp [List.filter_cons, ha', List.find?_cons, hak]
    | false =>
      cases ha' : (a.1 == k') with
      | true => simp [List.filter_cons, ha', List.find?_cons, hak, ih]
      | false => simp [List.filter_cons, ha', List.find?_cons, hak, ih]

theorem dget?_dpop_ne {k k' : String} (h : k ≠ k')
    (m : List (String × String)) : dget? (dpop m k') k = dget? m k := by
  unfold dget? dpop
  rw [find?_filter_ne h]

theorem find?_filter_self (k : String) (m : List (String × String)) :
    (m.filter (fun p => !(p.1 == k))).find? (fun p => p.1 == k) = none := by
  induction m with
  | nil => rfl
  | cons a rest ih =>
    cases ha : (a.1 == k) with
    | true => simp [List.filter_cons, ha, ih]
    | false => simp [List.filter_cons, ha, List.find?_cons, ih]

theorem dget?_dpop_self (m : List (String × String)) (k : String) :
    dget? (dpop m k) k = none := by
  unfold dget? dpop
  rw [find?_filter_self]
  rfl

theorem dget?_dinsert_ne {k k' : String} (h : k ≠ k')
    (m : List (String × String)) (v : String) :
    dget? (dinsert m k' v) k = dget? m k := by
  have h1 : (k' == k) = false := beq_eq_false_iff_ne.mpr (Ne.symm h)
  simp only [dget?, dinsert, List.find?_cons, h1]
  rw [find?_filter_ne h]

/-- Keys in the strip set never survive the copy loop of `_build_headers`. -/
theorem dget?_foldl_strip_skip {k : String}
    (hk : SKIP_REQUEST_HEADERS.contains (pyLower k) = true) :
    ∀ (req acc : List (String × String)),
      dget? acc k = none →
      dget? (req.foldl strip_step acc) k = none := by
  intro req
  induction req with
  | nil => intro acc h; exact h
  | cons p rest ih =>
    intro acc h
    rw [List.foldl_cons]
    apply ih
    unfold strip_step
    by_cases hp : SKIP_REQUEST_HEADERS.contains (pyLower p.1) = true
    · rw [if_pos hp]; exact h
    · rw [if_neg hp]
      have hne : k ≠ p.1 := by
        intro hEq
        rw [hEq] at hk
        exact hp hk
      rw [dget?_dinsert_ne hne]
      exact h

/-- Keys outside the strip set come through the copy loop exactly as a plain
dict of the incoming headers would hold them. -/
theorem dget?_foldl_keep {k : String}
    (hk : SKIP_REQUEST_HEADERS.contains (pyLower k) = false) :
    ∀ (req acc1 acc2 : List (String × String)),
      dget? acc1 k = dget? acc2 k →
      dget? (req.foldl strip_step acc1) k =
        dget? (req.foldl dict_step acc2) k := by
  intro req
  induction req with
  | nil => intro _ _ h; exact h
  | cons p rest ih =>
    intro acc1 acc2 h
    rw [List.foldl_cons, List.foldl_cons]
    apply ih
    unfold strip_step dict_step
    by_cases hp : SKIP_REQUEST_HEADERS.contains (pyLower p.1) = true
    · rw [if_pos hp]
      have hne : k ≠ p.1 := by
        intro hEq
        rw [hEq] at hk
        rw [hp] at hk
        cases hk
      rw [dget?_dinsert_ne hne]
      exact h
    · rw [if_neg hp]
      by_cases hkp : k = p.1
      · rw [hkp, dget?_dinsert_self, dget?_dinsert_self]
      · rw [dget?_dinsert_ne hkp, dget?_dinsert_ne hkp]
        exact h

/-- C7: the upstream headers are the incoming ones minus the stripped set
`{host, authorization, x-api-key, content-length, transfer-encoding}`
(compared lower-cased), all other headers carrying the same value as the
incoming dict, plus exactly one authentication header: `x-api-key` when the
credential starts with `sk-ant-`, otherwise `authorization: Bearer`. -/
theorem build_headers_spec :
    ∀ (req : List (String × String)) (key : String),
      (∀ k : String, SKIP_REQUEST_HEADERS.contains (pyLower k) = true →
        k ≠ "x-api-key" → k ≠ "authorization" →
        dget? (build_headers req key) k = none) ∧
      (∀ k : String, SKIP_REQUEST_HEADERS.contains (pyLower k) = false →
        dget? (build_headers req key) k = dget? (pyDict req) k) ∧
      (pyStartsWith key "sk-ant-" = true →
        dget? (build_headers req key) "x-api-key" = some key ∧
        dget? (build_headers req key) "authorization" = none) ∧
      (pyStartsWith key "sk-ant-" = false →
        dget? (build_headers req key) "authorization" =
          some ("Bearer " ++ key) ∧
        dget? (build_headers req key) "x-api-key" = none) := by
  intro req key
  refine ⟨?_, ?_, ?_, ?_⟩
  · intro k hk hk1 hk2
    simp only [build_headers]
    by_cases hsw : pyStartsWith key "sk-ant-" = true
    · rw [if_pos hsw, dget?_dpop_ne hk2, dget?_dinsert_ne hk1]
      exact dget?_foldl_strip_skip hk req [] rfl
    · rw [if_neg hsw, dget?_dpop_ne hk1, dget?_dinsert_ne hk2]
      exact dget?_foldl_strip_skip hk req [] rfl
  · intro k hk
    simp only [build_headers, pyDict]
    have hk1 : k ≠ "x-api-key" := by
      intro hEq; rw [hEq] at hk; exact absurd hk (by decide)
    have hk2 : k ≠ "authorization" := by
      intro hEq; rw [hEq] at hk; exact absurd hk (by decide)
    by_cases hsw : pyStartsWith key "sk-ant-" = true
    · rw [if_pos hsw, dget?_dpop_ne hk2, dget?_dinsert_ne hk1]
      exact dget?_foldl_keep hk req [] [] rfl
    · rw [if_neg hsw, dget?_dpop_ne hk1, dget?_dinsert_ne hk2]
      exact dget?_foldl_keep hk req [] [] rfl
  · intro hsw
    simp only [build_headers]
    rw [if_pos hsw]
    constructor
    · rw [dget?_dpop_ne (by decide : ("x-api-key" : String) ≠ "authorization")]
      exact dget?_dinsert_self _ _ _
    · exact dget?_dpop_self _ _
  · intro hsw
    simp only [build_headers]
    rw [if_neg (by rw [hsw]; decide)]
    constructor
    · rw [dget?_dpop_ne (by decide : ("authorization" : String) ≠ "x-api-key")]
      exact dget?_dinsert_self _ _ _
    · exact dget?_dpop_self _ _

/-- C7 witness: a plain API key on concrete incoming headers — `Host` and
`Authorization` are stripped, `x-api-key` carries the credential. -/
theorem build_headers_spec_witness :
    dget? (build_headers reqH "sk-ant-xyz") "x-api-key" = some "sk-ant-xyz" :=
  ((build_headers_spec reqH "sk-ant-xyz").2.2.1 (by decide)).1

/-- C1 (amended): every interleaving of tracker operations preserves
`0 ≤ active_connections` — the release half of `acquire_connection` clamps
at zero, so the count never goes negative — but the upper bound of the
claim fails: `acquire_connection` increments without any re-check of
`active < max_concurrent` (`tracker.py` line 259-262), so the
select/select/acquire/acquire race drives the count past `max_concurrent`. -/
theorem runOps_active_connections_nonneg :
    ∀ (tr : SubscriptionTracker) (ops : List TrackerOp),
      (∀ s ∈ tr.states, 0 ≤ s.active_connections) →
      ∀ s ∈ (runOps tr ops).states, 0 ≤ s.active_connections := by
  intro tr ops
  induction ops generalizing tr with
  | nil => intro h; exact h
  | cons op rest ih =>
    intro h
    have hstep : ∀ s ∈ (applyOp tr op).states, 0 ≤ s.active_connections := by
      cases op with
      | selectOp t => exact h
      | acquireEnterOp n =>
        intro s hs
        rcases List.mem_map.mp hs with ⟨s0, hs0, rfl⟩
        have h0 := h s0 hs0
        by_cases hn : s0.name = n
        · simp [hn, acquireEnter]
          omega
        · simp [hn]
          exact h0
      | releaseOp n =>
        intro s hs
        rcases List.mem_map.mp hs with ⟨s0, hs0, rfl⟩
        by_cases hn : s0.name = n
        · simp [hn, releaseConnection]
        · simp [hn]
          exact h s0 hs0
      | record429Op n t =>
        intro s hs
        rcases List.mem_map.mp hs with ⟨s0, hs0, rfl⟩
        by_cases hn : s0.name = n
        · simp [hn, record_429]
          exact h s0 hs0
        · simp [hn]
          exact h s0 hs0
      | recordErrorOp n =>
        intro s hs
        rcases List.mem_map.mp hs with ⟨s0, hs0, rfl⟩
        by_cases hn : s0.name = n
        · simp [hn, record_error]
          exact h s0 hs0
        · simp [hn]
          exact h s0 hs0
    simp only [runOps, List.foldl_cons]
    exact ih (applyOp tr op) hstep

/-- C1 counterexample: on a one-slot subscription, two selects (select does
not reserve capacity) followed by two acquires leave
`active_connections = 2` while `max_concurrent = 1`, violating the claimed
invariant `active_connections ≤ max_concurrent`. -/
theorem select_acquire_race_exceeds_max :
    trOne.select_subscription 0 none none none none = some stOne ∧
    (runOps trOne [TrackerOp.selectOp 0, TrackerOp.selectOp 0,
        TrackerOp.acquireEnterOp "a", TrackerOp.acquireEnterOp "a"]).states =
      [{ config := cfgOne, active_connections := 2, total_requests := 2,
         total_errors := 0, last_429_at := none }] ∧
    stOne.max_concurrent = 1 := by
  decide

/-- C1 witness: a matched acquire applied to the idle tracker keeps the
count non-negative. -/
theorem runOps_active_connections_nonneg_witness :
    0 ≤ ((runOps trOne [TrackerOp.acquireEnterOp "a"]).states.getD 0
      stOne).active_connections :=
  runOps_active_connections_nonneg trOne [TrackerOp.acquireEnterOp "a"]
    (by decide)
    ((runOps trOne [TrackerOp.acquireEnterOp "a"]).states.getD 0 stOne)
    (by decide)

/-- C2 (amended): when every attempted subscription answers 429, the
non-streaming loop ends either with the 429 rate_limit envelope (all
subscriptions rate limited) — reached only by exhausting the three attempts
on distinct subscriptions, or by selection re-offering an excluded one — or
with the 503 overloaded envelope, reached when `select_subscription` runs
out of candidates because the 429-ed subscriptions are cooling down; with a
single eligible subscription the result is the 503 envelope, not 429. -/
theorem all_429_final_status :
    ∀ (upstream : String → Nat → UpstreamOutcome) (times : Nat → Int)
      (fuel attempt : Nat) (excluded : List String)
      (tr : SubscriptionTracker),
      (∀ (n : String) (i : Nat), (upstream n i).code? = some 429) →
      (nonStreamingAttempts upstream times fuel attempt excluded tr).1 =
          ProxyResponse.envelope 429 "rate_limit" RATE_LIMITED_ALL_MSG ∨
        (nonStreamingAttempts upstream times fuel attempt excluded tr).1 =
          ProxyResponse.envelope 503 "overloaded" OVERLOADED_MSG := by
  intro upstream times fuel
  induction fuel with
  | zero =>
    intro attempt excluded tr h429
    left
    rfl
  | succ fuel ih =>
    intro attempt excluded tr h429
    rw [nonStreamingAttempts]
    cases hsel : tr.select_subscription (times attempt) none none none none with
    | none => right; rfl
    | some sub =>
      dsimp only
      by_cases hex : excluded.contains sub.name = true
      · rw [if_pos hex]
        left
        rfl
      · rw [if_neg hex]
        have hcode := h429 sub.name attempt
        cases hup : upstream sub.name attempt with
        | status code hdrs =>
          rw [hup] at hcode
          simp only [UpstreamOutcome.code?, Option.some.injEq] at hcode
          subst hcode
          dsimp only
          rw [if_pos rfl]
          exact ih (attempt + 1) (sub.name :: excluded) _ h429
        | timeoutExn =>
          rw [hup] at hcode
          simp [UpstreamOutcome.code?] at hcode
        | requestErrorExn =>
          rw [hup] at hcode
          simp [UpstreamOutcome.code?] at hcode

/-- C2 counterexample: one eligible subscription answering 429 — the claim
demands a final 429 rate_limit envelope, but after the 429 puts the
subscription in cooldown, the next iteration selects nothing and the code
returns the 503 overloaded envelope. -/
theorem single_429_subscription_gets_503 :
    (nonStreamingAttempts (fun _ _ => UpstreamOutcome.status 429 [])
        (fun _ => 0) (MAX_429_RETRIES + 1) 0 [] trOne).1 =
      ProxyResponse.envelope 503 "overloaded" OVERLOADED_MSG := by
  decide

/-- C2 witness: the amended disjunction instantiated on the concrete
always-429 upstream. -/
theorem all_429_final_status_witness :
    (nonStreamingAttempts (fun _ _ => UpstreamOutcome.status 429 [])
        (fun _ => 0) (MAX_429_RETRIES + 1) 0 [] trOne).1 =
        ProxyResponse.envelope 429 "rate_limit" RATE_LIMITED_ALL_MSG ∨
      (nonStreamingAttempts (fun _ _ => UpstreamOutcome.status 429 [])
        (fun _ => 0) (MAX_429_RETRIES + 1) 0 [] trOne).1 =
        ProxyResponse.envelope 503 "overloaded" OVERLOADED_MSG :=
  all_429_final_status (fun _ _ => UpstreamOutcome.status 429 [])
    (fun _ => 0) (MAX_429_RETRIES + 1) 0 [] trOne (fun _ _ => rfl)

/-- Every proxy-originated envelope the non-streaming loop can produce. -/
theorem nonStreamingAttempts_envelope_mem :
    ∀ (upstream : String → Nat → UpstreamOutcome) (times : Nat → Int)
      (fuel attempt : Nat) (excluded : List String)
      (tr : SubscriptionTracker) (st : Int) (k m : String),
      (nonStreamingAttempts upstream times fuel attempt excluded tr).1 =
        ProxyResponse.envelope st k m →
      (st, k) ∈ ([(429, "rate_limit"), (503, "overloaded"), (504, "timeout"),
        (502, "proxy_error")] : List (Int × String)) := by
  intro upstream times fuel
  induction fuel with
  | zero =>
    intro attempt excluded tr st k m h
    rw [nonStreamingAttempts] at h
    cases h
    decide
  | succ fuel ih =>
    intro attempt excluded tr st k m h
    rw [nonStreamingAttempts] at h
    cases hsel : tr.select_subscription (times attempt) none none none none with
    | none =>
      rw [hsel] at h
      cases h
      decide
    | some sub =>
      rw [hsel] at h
      dsimp only at h
      by_cases hex : excluded.contains sub.name = true
      · rw [if_pos hex] at h
        cases h
        decide
      · rw [if_neg hex] at h
        cases hup : upstream sub.name attempt with
        | status code hdrs =>
          rw [hup] at h
          dsimp only at h
          by_cases hc : code = 429
          · rw [if_pos hc] at h
            exact ih _ _ _ _ _ _ h
          · rw [if_neg hc] at h
            by_cases h5 : (500 : Int) ≤ code
            · rw [if_pos h5] at h
              cases h
            · rw [if_neg h5] at h
              cases h
        | timeoutExn =>
          rw [hup] at h
          cases h
          decide
        | requestErrorExn =>
          rw [hup] at h
          cases h
          decide

/-- Every proxy-originated envelope the streaming path can produce. -/
theorem streamingPath_envelope_mem :
    ∀ (tr : SubscriptionTracker) (now : Int)
      (upstream : String → UpstreamOutcome) (st : Int) (k m : String),
      (streamingPath tr now upstream).1 = ProxyResponse.envelope st k m →
      (st, k) ∈ ([(503, "overloaded"), (429, "rate_limit"), (504, "timeout"),
        (502, "proxy_error")] : List (Int × String)) := by
  intro tr now upstream st k m h
  rw [streamingPath] at h
  cases hsel : tr.select_subscription now none none none none with
  | none =>
    rw [hsel] at h
    cases h
    decide
  | some sub =>
    rw [hsel] at h
    dsimp only at h
    cases hup : upstream sub.name with
    | status code hdrs =>
      rw [hup] at h
      dsimp only at h
      by_cases hc : code = 429
      · rw [if_pos hc] at h
        cases h
        decide
      · rw [if_neg hc] at h
        cases h
    | timeoutExn =>
      rw [hup] at h
      cases h
      decide
    | requestErrorExn =>
      rw [hup] at h
      cases h
      decide

/-- Every proxy-originated envelope `proxy_request` can produce. -/
theorem proxy_request_envelope_mem :
    ∀ (tr : SubscriptionTracker) (body : RequestBody)
      (us : String → UpstreamOutcome) (ub : String → Nat → UpstreamOutcome)
      (times : Nat → Int) (res : ProxyResponse × SubscriptionTracker)
      (st : Int) (k m : String),
      proxy_request tr body us ub times = Except.ok res →
      res.1 = ProxyResponse.envelope st k m →
      (st, k) ∈ ([(429, "rate_limit"), (503, "overloaded"), (504, "timeout"),
        (502, "proxy_error")] : List (Int × String)) := by
  intro tr body us ub times res st k m hok henv
  rw [proxy_request] at hok
  cases hs : is_streaming_request body.parsed with
  | error e =>
    rw [hs] at hok
    cases hok
  | ok b =>
    rw [hs] at hok
    cases b with
    | true =>
      injection hok with h'
      rw [← h'] at henv
      have := streamingPath_envelope_mem tr (times 0) us st k m henv
      simp only [List.mem_cons, List.mem_singleton] at this ⊢
      tauto
    | false =>
      injection hok with h'
      rw [← h'] at henv
      exact nonStreamingAttempts_envelope_mem ub times (MAX_429_RETRIES + 1)
        0 [] tr st k m henv

/-- C3 (amended): there is no body-size check anywhere on the dispatch path:
`proxy_request` never inspects the body length and `proxy_v1` adds only the
admission and readiness checks, so no request — whatever its body length,
including bodies over 10 MiB — is ever answered with a proxy-originated 413
envelope; every body is accepted and, when a subscription is available,
forwarded upstream. -/
theorem proxy_v1_never_413 :
    ∀ (cfg? : Option ExternalAccessConfig) (ready : Bool)
      (tr : SubscriptionTracker) (req : EdgeRequest) (body : RequestBody)
      (us : String → UpstreamOutcome) (ub : String → Nat → UpstreamOutcome)
      (times : Nat → Int) (res : ProxyResponse × SubscriptionTracker),
      proxy_v1 cfg? ready tr req body us ub times = Except.ok res →
      ∀ k m : String, res.1 ≠ ProxyResponse.envelope 413 k m := by
  intro cfg? ready tr req body us ub times res hres k m hEq
  simp only [proxy_v1] at hres
  cases hc : (check_external_access cfg? req).1 with
  | false =>
    rw [hc] at hres
    injection hres with h'
    rw [← h'] at hEq
    simp at hEq
  | true =>
    rw [hc] at hres
    cases ready with
    | false =>
      injection hres with h'
      rw [← h'] at hEq
      simp at hEq
    | true =>
      have hmem := proxy_request_envelope_mem tr body us ub times res 413 k m
        hres hEq
      simp at hmem

/-- C3 counterexample: a non-JSON body one byte over 10 MiB from a loopback
client — the claim demands a 413 rejection before any upstream call, but the
request is forwarded and the upstream 200 response is returned. -/
theorem oversized_body_is_forwarded :
    proxy_v1 (some extOff) true trOne reqLocal bodyBig
        (fun _ => UpstreamOutcome.status 200 [])
        (fun _ _ => UpstreamOutcome.status 200 []) (fun _ => 0) =
      Except.ok (ProxyResponse.upstream 200 [], trOneDone) := rfl

/-- C3 witness: the never-413 theorem instantiated on the oversized body. -/
theorem proxy_v1_never_413_witness :
    (ProxyResponse.upstream 200 ([] : List (String × String)),
        trOneDone).1 ≠
      ProxyResponse.envelope 413 "request_too_large" "Request too large" :=
  proxy_v1_never_413 (some extOff) true trOne reqLocal bodyBig
    (fun _ => UpstreamOutcome.status 200 [])
    (fun _ _ => UpstreamOutcome.status 200 []) (fun _ => 0)
    (ProxyResponse.upstream 200 [], trOneDone) rfl
    "request_too_large" "Request too large"

end LoadBalancer
